import Mathlib

/-
Verification development for the Monitor System alert checker
(backend/app/workers/monitor_alert_checker.py).

The worker's pure logic is shallowly embedded below:
  - condition evaluation (`_evaluate_condition`, lines 68-134),
  - the per-rule alert state machine (`_handle_triggered_alert`, lines 136-173,
    and the clear branch of `run`, lines 50-56),
  - the per-rule isolation of the checker loop (`run`, lines 45-60),
  - the boundary formatter (`_parse_condition_to_boundary`, lines 223-242).

External collaborators (the SQLAlchemy datastore, Python's `str` on floats,
Python's `eval`, and the Pushover transport) are passed in as explicit
parameters, so every embedded function is total and executable.
-/

set_option maxRecDepth 10000

namespace MonitorAlertChecker

/-- Modelled from the spec: the `AlertRule` entity of `app.models.database`
(not under src/): identifier, name, condition string, enabled flag,
cooldown duration in seconds, severity level. -/
structure AlertRule where
  id : Nat
  name : String
  condition : String
  enabled : Bool
  cooldown_seconds : Int
  level : String

/-- Modelled from the spec: the `Monitor` (MonitorMeta) entity of
`app.models.database` (not under src/): metric identifier, display name,
optional unit string, decimal places for display. -/
structure Monitor where
  id : String
  name : String
  unit : Option String
  decimal_places : Nat

/-- Modelled from the spec: the `MonitorValue` (MetricSample) entity of
`app.models.database` (not under src/): a numeric value, nullable
("no data yet").  The computed-at ordering used by the latest-sample query
is absorbed into `Db.latestValue`. -/
structure MonitorValue where
  value : Option ℚ

/-- The datastore interface the checker consumes (spec section 6):
`db.query(Monitor).filter(Monitor.id == m).first()` becomes `findMonitor m`,
and the `MonitorValue` query ordered by `computed_at` descending with
`.first()` becomes `latestValue m`. -/
structure Db where
  findMonitor : String → Option Monitor
  latestValue : String → Option MonitorValue

/-- One entry of `self.alert_states`:
`{'last_notified': timestamp, 'is_active': bool}`.  Timestamps are modelled
as integer seconds; `last_notified` is optional because `dict.get` returns
`None` for a missing key. -/
structure AlertStateEntry where
  last_notified : Option Int
  is_active : Bool

/-- The `self.alert_states` dictionary, keyed by rule id; `none` means the
rule has no entry yet. -/
abbrev States := Nat → Option AlertStateEntry

/-- The literal placeholder opener matched by the regex
`\$\{monitor:([^}]+)\}` in the source. -/
def phStart : List Char := "$\x7bmonitor:".toList

/-- Fuel-indexed scanner implementing `re.findall(r'\$\{monitor:([^}]+)\}', s)`:
at each position, a match requires the literal opener, one or more
non-brace characters (the captured id), and a closing brace; on success
scanning resumes after the match, otherwise it advances one character.
The fuel is always instantiated with the length of the input, which each
step strictly decreases. -/
def findRefsAux (fuel : Nat) (l : List Char) : List String :=
  match fuel, l with
  | 0, _ => []
  | _ + 1, [] => []
  | fuel + 1, c :: rest =>
    if phStart.isPrefixOf (c :: rest) then
      let after := (c :: rest).drop phStart.length
      let run := after.takeWhile (fun ch => ch ≠ '\x7d')
      match after.dropWhile (fun ch => ch ≠ '\x7d') with
      | '\x7d' :: rest2 =>
        if run.isEmpty then findRefsAux fuel rest
        else String.mk run :: findRefsAux fuel rest2
      | _ => findRefsAux fuel rest
    else findRefsAux fuel rest

/-- Source line 82: `monitor_refs = re.findall(r'\$\{monitor:([^}]+)\}', condition)`. -/
def findMonitorRefs (s : String) : List String :=
  findRefsAux s.toList.length s.toList

/-- Fuel-indexed implementation of Python's `str.replace(pat, repl)`:
all non-overlapping occurrences, scanning left to right, continuing after
each replacement.  The fuel is always instantiated with the length of the
input, which each step strictly decreases. -/
def replFuel (pat repl : List Char) : Nat → List Char → List Char
  | 0, l => l
  | _ + 1, [] => []
  | fuel + 1, c :: rest =>
    if !pat.isEmpty && pat.isPrefixOf (c :: rest) then
      repl ++ replFuel pat repl fuel ((c :: rest).drop pat.length)
    else
      c :: replFuel pat repl fuel rest

/-- Python's `s.replace(pat, repl)` for non-empty patterns. -/
def pyReplace (s pat repl : String) : String :=
  String.mk (replFuel pat.toList repl.toList s.toList.length s.toList)

/-- Source lines 88-110: the substitution loop.  For each extracted
reference, look the monitor up; if it is missing, or there is no latest
value row, or the stored value is null, return `none` (the Python code
returns `False` from `_evaluate_condition` at that point).  Otherwise
replace every occurrence of the placeholder with `render v`, where
`render` models Python's `str` applied to the stored float. -/
def substRefs (db : Db) (render : ℚ → String) : List String → String → Option String
  | [], acc => some acc
  | m :: rest, acc =>
    match db.findMonitor m with
    | none => none
    | some _ =>
      match db.latestValue m with
      | none => none
      | some lv =>
        match lv.value with
        | none => none
        | some v =>
          substRefs db render rest (pyReplace acc ("$\x7bmonitor:" ++ m ++ "\x7d") (render v))

/-- Source line 115: `safe_chars = set('0123456789.><=|& -or')`. -/
def safe_chars : List Char := "0123456789.><=|& -or".toList

/-- Source line 121: `all(c in safe_chars for c in evaluated_condition)`.
Note the source checks `evaluated_condition`, not the operator-stripped
`check_str` it just computed. -/
def isSafeCondition (s : String) : Bool :=
  s.toList.all (fun c => safe_chars.contains c)

/-- Source line 118: the operator list stripped out of `check_str`. -/
def opsToStrip : List String := ["||", "&&", ">=", "<=", "==", "!=", ">", "<", " or ", " and "]

/-- Source lines 117-119: `check_str` with every operator spelling removed.
The source computes this value and then never uses it (the validation on
line 121 reads `evaluated_condition` instead). -/
def checkStr (s : String) : String :=
  opsToStrip.foldl (fun acc op => pyReplace acc op "") s

/-- Source lines 126-127: normalisation of logical-operator spellings
before `eval` (the first and third replacements are no-ops in the source,
kept verbatim). -/
def normalizeLogicalOps (s : String) : String :=
  pyReplace (pyReplace (pyReplace (pyReplace s " or " " or ") " || " " or ") " and " " and ") " && " " and "

/-- Source lines 68-134, `_evaluate_condition`.  `pyEval` models Python's
`eval` composed with `bool(...)`; `none` models an exception, which the
`except` clause on line 132 turns into `False`.  The result pairs the
boolean outcome with the expression actually passed to `eval` (`none`
when `eval` is never reached), making the control flow observable. -/
def evaluateCondition (db : Db) (render : ℚ → String) (pyEval : String → Option Bool)
    (condition : String) : Bool × Option String :=
  let refs := findMonitorRefs condition
  if refs.isEmpty then (false, none)
  else
    match substRefs db render refs condition with
    | none => (false, none)
    | some evaluated =>
      let _cs := checkStr evaluated
      if isSafeCondition evaluated then
        let normalized := normalizeLogicalOps evaluated
        match pyEval normalized with
        | some b => (b, some normalized)
        | none => (false, some normalized)
      else (false, none)

/-- Source line 142: `rule_state.get('last_notified')` where `rule_state`
is `self.alert_states.get(rule.id, {})`. -/
def getLastNotified (state : Option AlertStateEntry) : Option Int :=
  match state with
  | none => none
  | some e => e.last_notified

/-- Source lines 155-173: the dispatch attempt.  `sendResult` models the
Pushover transport: `some true` = accepted, `some false` = returned
failure, `none` = raised (caught on line 172).  Only a successful send
writes the state entry; the boolean records that a dispatch was
attempted. -/
def attemptDispatch (now : Int) (state : Option AlertStateEntry) (sendResult : Option Bool) :
    Option AlertStateEntry × Bool :=
  match sendResult with
  | some true => (some { last_notified := some now, is_active := true }, true)
  | some false => (state, true)
  | none => (state, true)

/-- Source lines 136-173, `_handle_triggered_alert`: suppress when the
elapsed seconds since `last_notified` are strictly below the rule's
cooldown, otherwise attempt a dispatch. -/
def handleTriggeredAlert (now : Int) (rule : AlertRule) (state : Option AlertStateEntry)
    (sendResult : Option Bool) : Option AlertStateEntry × Bool :=
  match getLastNotified state with
  | some t =>
    if now - t < rule.cooldown_seconds then (state, false)
    else attemptDispatch now state sendResult
  | none => attemptDispatch now state sendResult

/-- Source lines 50-56: the per-rule body of `run` after the condition has
been evaluated.  When triggered, defer to `_handle_triggered_alert`
(updating this rule's entry); when not triggered, flip `is_active` off if
the rule had an active entry.  Returns the new state store and whether a
dispatch was attempted for this rule. -/
def runRuleUpdate (now : Int) (rule : AlertRule) (triggered : Bool) (sendResult : Option Bool)
    (states : States) : States × Bool :=
  if triggered then
    (fun rid =>
      if rid = rule.id then (handleTriggeredAlert now rule (states rule.id) sendResult).1
      else states rid,
     (handleTriggeredAlert now rule (states rule.id) sendResult).2)
  else
    match states rule.id with
    | some e =>
      if e.is_active then
        (fun rid =>
          if rid = rule.id then some { e with is_active := false } else states rid,
         false)
      else (states, false)
    | none => (states, false)

/-- Source lines 45-60: the per-rule loop of `run`.  `stepFn` is the body
checking one rule (evaluation, state-machine step, formatting, dispatch,
state update); `Except.error` models an exception escaping the body,
which the `except` clause on line 58 catches before continuing with the
next rule.  The returned list records the id of every rule whose check
was entered, in order. -/
def runCycle (stepFn : AlertRule → States → Except String States) :
    List AlertRule → States → States × List Nat
  | [], states => (states, [])
  | r :: rest, states =>
    let states2 :=
      match stepFn r states with
      | Except.ok s => s
      | Except.error _ => states
    ((runCycle stepFn rest states2).1, r.id :: (runCycle stepFn rest states2).2)

/-- Python's `\s` on ASCII input (re.sub in `_parse_condition_to_boundary`). -/
def pySpace (c : Char) : Bool :=
  c = ' ' || c = '\t' || c = '\n' || c = '\r' || c = '\x0b' || c = '\x0c'

/-- Fuel-indexed scanner implementing
`re.sub(r'\$\{monitor:[^}]+\}\s*', '', s)`: every placeholder together
with the whitespace run following it is deleted; all other characters are
kept.  The fuel is always instantiated with the length of the input. -/
def stripAux (fuel : Nat) (l : List Char) : List Char :=
  match fuel, l with
  | 0, l => l
  | _ + 1, [] => []
  | fuel + 1, c :: rest =>
    if phStart.isPrefixOf (c :: rest) then
      let after := (c :: rest).drop phStart.length
      let run := after.takeWhile (fun ch => ch ≠ '\x7d')
      match after.dropWhile (fun ch => ch ≠ '\x7d') with
      | '\x7d' :: rest2 =>
        if run.isEmpty then c :: stripAux fuel rest
        else stripAux fuel (rest2.dropWhile pySpace)
      | _ => c :: stripAux fuel rest
    else c :: stripAux fuel rest

/-- Source lines 223-242, `_parse_condition_to_boundary`: strip the
placeholders (with trailing whitespace), then upper-case the logical
operator spellings, in the source's replacement order. -/
def parseConditionToBoundary (condition : String) : String :=
  let simplified := String.mk (stripAux condition.toList.length condition.toList)
  pyReplace (pyReplace (pyReplace (pyReplace simplified " or " " OR ") " and " " AND ") "||" " OR ") "&&" " AND "

/-! Helper lemmas shared by several claims. -/

/-- A single out-of-whitelist character falsifies the validation check. -/
lemma isSafeCondition_eq_false {s : String} {c : Char} (hc : c ∈ s.toList)
    (hout : safe_chars.contains c = false) : isSafeCondition s = false := by
  unfold isSafeCondition
  rw [List.all_eq_false]
  exact ⟨c, hc, by simp_all⟩

/-- A list with a member is not empty. -/
lemma isEmpty_eq_false_of_mem {α : Type} {l : List α} {a : α} (h : a ∈ l) :
    l.isEmpty = false := by
  cases l with
  | nil => cases h
  | cons x xs => rfl

/-- The three source guards of the substitution loop (lines 93-104), as one
predicate: the referenced monitor row is absent, or it has no value row,
or the latest value row stores a null value. -/
def lookupFails (db : Db) (m : String) : Prop :=
  db.findMonitor m = none ∨ db.latestValue m = none ∨
    ∃ lv, db.latestValue m = some lv ∧ lv.value = none

/-- If any referenced metric fails its lookup, the substitution loop
returns `none` (the source returns `False` from inside the loop). -/
lemma substRefs_eq_none (db : Db) (render : ℚ → String) (m : String)
    (hfail : lookupFails db m) :
    ∀ refs acc, m ∈ refs → substRefs db render refs acc = none := by
  intro refs
  induction refs with
  | nil => intro acc h; cases h
  | cons r rest ih =>
    intro acc hm
    rcases List.mem_cons.mp hm with heq | hmem
    · subst heq
      cases hfm : db.findMonitor m with
      | none => simp [substRefs, hfm]
      | some mon =>
        cases hlv : db.latestValue m with
        | none => simp [substRefs, hfm, hlv]
        | some lv =>
          cases hv : lv.value with
          | none => simp [substRefs, hfm, hlv, hv]
          | some v =>
            exfalso
            rcases hfail with h1 | h2 | ⟨lv2, h3, h4⟩
            · rw [hfm] at h1; cases h1
            · rw [hlv] at h2; cases h2
            · rw [hlv] at h3
              injection h3 with h5
              subst h5
              rw [hv] at h4; cases h4
    · cases hfm : db.findMonitor r with
      | none => simp [substRefs, hfm]
      | some mon =>
        cases hlv : db.latestValue r with
        | none => simp [substRefs, hfm, hlv]
        | some lv =>
          cases hv : lv.value with
          | none => simp [substRefs, hfm, hlv, hv]
          | some v =>
            simp only [substRefs, hfm, hlv, hv]
            exact ih _ hmem

/-- Claim C1: whenever the post-substitution candidate expression contains
at least one character outside the source's `safe_chars` whitelist, the
condition evaluator returns non-triggering (`false`) and the candidate is
never handed to the expression evaluation facility (`eval`), whatever
that facility would answer. -/
theorem unsafe_condition_not_evaluated (db : Db) (render : ℚ → String)
    (pyEval : String → Option Bool) (condition evaluated : String) (c : Char)
    (hsub : substRefs db render (findMonitorRefs condition) condition = some evaluated)
    (hc : c ∈ evaluated.toList) (hout : safe_chars.contains c = false) :
    evaluateCondition db render pyEval condition = (false, none) := by
  unfold evaluateCondition
  cases hre : (findMonitorRefs condition).isEmpty with
  | true => simp [hre]
  | false =>
    simp only [hre, Bool.false_eq_true, if_false]
    rw [hsub]
    simp [isSafeCondition_eq_false hc hout]

/-- Concrete datastore for the C1 witness: metric `a` exists with latest
value `3`. -/
def dbW1 : Db :=
  { findMonitor := fun m =>
      if m = "a" then some { id := "a", name := "A", unit := none, decimal_places := 1 } else none
    latestValue := fun m => if m = "a" then some { value := some 3 } else none }

/-- Witness for C1: the condition contains a semicolon after the
placeholder, so even an `eval` that always answers `true` never fires. -/
theorem unsafe_condition_not_evaluated_witness :
    evaluateCondition dbW1 (fun _ => "3") (fun _ => some true) "$\x7bmonitor:a\x7d > 2; 9" =
      (false, none) :=
  unsafe_condition_not_evaluated dbW1 (fun _ => "3") (fun _ => some true)
    "$\x7bmonitor:a\x7d > 2; 9" "3 > 2; 9" ';' (by decide) (by decide) (by decide)

/-- Concrete datastore for the C2 evaluation: metric `m1` exists with
latest value `62`, rendered by Python's `str` as `62.0`. -/
def dbC2 : Db :=
  { findMonitor := fun m =>
      if m = "m1" then some { id := "m1", name := "M1", unit := none, decimal_places := 1 } else none
    latestValue := fun m => if m = "m1" then some { value := some 62 } else none }

/-- Claim C2 (code bug, evaluated at the failing input): the candidate
expression `62.0 != 50` consists solely of digits, `.`, whitespace and the
comparison operator `!=`, yet the evaluator rejects it as unsafe and
returns `(false, none)` without evaluating, because `safe_chars` lacks
`!` and line 121 validates the raw candidate instead of the
operator-stripped `check_str` it just computed (which it would have
accepted). -/
theorem whitelist_rejects_neq_candidate :
    evaluateCondition dbC2 (fun _ => "62.0") (fun _ => some true) "$\x7bmonitor:m1\x7d != 50" =
        (false, none) ∧
      isSafeCondition "62.0 != 50" = false ∧
      checkStr "62.0 != 50" = "62.0  50" ∧
      isSafeCondition (checkStr "62.0 != 50") = true := by
  refine ⟨?_, ?_, ?_, ?_⟩ <;> decide

/-- Claim C3: a rule referencing a metric whose lookup fails (missing
monitor row, no recorded sample, or null value) evaluates to
non-triggering, and `eval` is never reached; the embedding is a total
function, so no exception can escape. -/
theorem missing_data_not_triggering (db : Db) (render : ℚ → String)
    (pyEval : String → Option Bool) (condition : String) (m : String)
    (hm : m ∈ findMonitorRefs condition) (hfail : lookupFails db m) :
    evaluateCondition db render pyEval condition = (false, none) := by
  unfold evaluateCondition
  simp only [isEmpty_eq_false_of_mem hm, Bool.false_eq_true, if_false]
  rw [substRefs_eq_none db render m hfail _ _ hm]

/-- Concrete datastore for the C3 witness: metric `a` exists but has no
recorded sample. -/
def dbW3 : Db :=
  { findMonitor := fun m =>
      if m = "a" then some { id := "a", name := "A", unit := none, decimal_places := 1 } else none
    latestValue := fun _ => none }

/-- Witness for C3: a rule on metric `a`, which has no sample, does not
trigger even under an `eval` that always answers `true`. -/
theorem missing_data_not_triggering_witness :
    evaluateCondition dbW3 (fun _ => "1") (fun _ => some true) "$\x7bmonitor:a\x7d > 5" =
      (false, none) :=
  missing_data_not_triggering dbW3 (fun _ => "1") (fun _ => some true)
    "$\x7bmonitor:a\x7d > 5" "a" (by decide) (Or.inr (Or.inl rfl))

/-- Claim C7 counterexample: on the spec's own example condition the
boundary formatter does not return the claimed string `>50 OR <30` —
the spaces between each comparison operator and its number survive. -/
theorem boundary_example_counterexample :
    parseConditionToBoundary "$\x7bmonitor:x\x7d > 50 or $\x7bmonitor:x\x7d < 30" ≠
      ">50 OR <30" := by
  decide

/-- Claim C7 as amended: the boundary formatter strips each placeholder
with its trailing whitespace and upper-cases the logical operators, but
keeps the interior spacing of the condition, returning exactly
`> 50 OR < 30` on both spellings of the example. -/
theorem boundary_example_amended :
    parseConditionToBoundary "$\x7bmonitor:x\x7d > 50 or $\x7bmonitor:x\x7d < 30" =
        "> 50 OR < 30" ∧
      parseConditionToBoundary "$\x7bmonitor:m1\x7d > 50 or $\x7bmonitor:m1\x7d < 30" =
        "> 50 OR < 30" := by
  exact ⟨by decide, by decide⟩

/-- The dispatch decision of `_handle_triggered_alert` as a function of the
stored timestamp: fire when never notified, otherwise exactly when the
elapsed seconds reach the cooldown. -/
lemma handle_dispatch_iff (now : Int) (rule : AlertRule) (state : Option AlertStateEntry)
    (sendResult : Option Bool) :
    (handleTriggeredAlert now rule state sendResult).2 =
      match getLastNotified state with
      | none => true
      | some t => decide (rule.cooldown_seconds ≤ now - t) := by
  unfold handleTriggeredAlert
  cases hl : getLastNotified state with
  | none =>
    cases sendResult with
    | none => rfl
    | some b => cases b <;> rfl
  | some t =>
    show (if now - t < rule.cooldown_seconds then (state, false)
          else attemptDispatch now state sendResult).2 =
      decide (rule.cooldown_seconds ≤ now - t)
    by_cases hc : now - t < rule.cooldown_seconds
    · rw [if_pos hc, decide_eq_false (by omega)]
    · rw [if_neg hc, decide_eq_true (by omega)]
      cases sendResult with
      | none => rfl
      | some b => cases b <;> rfl

/-- When `_handle_triggered_alert` attempts no dispatch (the cooldown
branch), it leaves the entry exactly as it was. -/
lemma handle_no_dispatch_eq (now : Int) (rule : AlertRule) (state : Option AlertStateEntry)
    (sendResult : Option Bool)
    (h : (handleTriggeredAlert now rule state sendResult).2 = false) :
    (handleTriggeredAlert now rule state sendResult).1 = state := by
  cases hl : getLastNotified state with
  | none =>
    exfalso
    unfold handleTriggeredAlert at h
    rw [hl] at h
    cases sendResult with
    | none => simp [attemptDispatch] at h
    | some b => cases b <;> simp [attemptDispatch] at h
  | some t =>
    unfold handleTriggeredAlert at h ⊢
    rw [hl] at h ⊢
    have h2 : (if now - t < rule.cooldown_seconds then (state, false)
        else attemptDispatch now state sendResult).2 = false := h
    show (if now - t < rule.cooldown_seconds then (state, false)
        else attemptDispatch now state sendResult).1 = state
    by_cases hc : now - t < rule.cooldown_seconds
    · rw [if_pos hc]
    · exfalso
      rw [if_neg hc] at h2
      cases sendResult with
      | none => simp [attemptDispatch] at h2
      | some b => cases b <;> simp [attemptDispatch] at h2

/-- Entries of rules other than the one being stepped are never touched. -/
lemma runRuleUpdate_other (now : Int) (rule : AlertRule) (triggered : Bool)
    (sendResult : Option Bool) (states : States) (rid : Nat) (hr : rid ≠ rule.id) :
    (runRuleUpdate now rule triggered sendResult states).1 rid = states rid := by
  unfold runRuleUpdate
  cases triggered with
  | false =>
    cases hst : states rule.id with
    | none => rfl
    | some e =>
      cases hact : e.is_active with
      | false => simp [hst, hact]
      | true => simp [hst, hact, hr]
  | true => simp [hr]

/-- Claim C4: for a rule whose condition evaluated true, the state machine
attempts a dispatch exactly when the rule was never notified or the
elapsed seconds since `last_notified` reach the cooldown; a strictly
smaller elapsed time suppresses the dispatch. -/
theorem cooldown_gate_dispatch (now : Int) (rule : AlertRule) (sendResult : Option Bool)
    (states : States) :
    (runRuleUpdate now rule true sendResult states).2 =
      match getLastNotified (states rule.id) with
      | none => true
      | some t => decide (rule.cooldown_seconds ≤ now - t) :=
  handle_dispatch_iff now rule (states rule.id) sendResult

/-- Claim C5: a triggered, cooldown-eligible rule whose dispatch fails
(transport returned false, or raised) has its state store left entirely
unmutated — no entry is written, so no cooldown window starts — while the
dispatch was indeed attempted. -/
theorem failed_dispatch_leaves_state (now : Int) (rule : AlertRule) (states : States)
    (sendResult : Option Bool)
    (heligible : getLastNotified (states rule.id) = none ∨
      ∃ t, getLastNotified (states rule.id) = some t ∧ rule.cooldown_seconds ≤ now - t)
    (hfail : sendResult = some false ∨ sendResult = none) :
    (runRuleUpdate now rule true sendResult states).1 = states ∧
      (runRuleUpdate now rule true sendResult states).2 = true := by
  have hatt : attemptDispatch now (states rule.id) sendResult = (states rule.id, true) := by
    rcases hfail with h | h <;> subst h <;> rfl
  have hh : handleTriggeredAlert now rule (states rule.id) sendResult = (states rule.id, true) := by
    unfold handleTriggeredAlert
    rcases heligible with h1 | ⟨t, h1, h2⟩
    · simp only [h1]
      exact hatt
    · simp only [h1]
      rw [if_neg (by omega)]
      exact hatt
  constructor
  · funext rid
    show (if rid = rule.id then (handleTriggeredAlert now rule (states rule.id) sendResult).1
          else states rid) = states rid
    rw [hh]
    by_cases hr : rid = rule.id
    · rw [if_pos hr, hr]
    · rw [if_neg hr]
  · show (handleTriggeredAlert now rule (states rule.id) sendResult).2 = true
    rw [hh]

/-- A rule used by several witnesses: id 1, cooldown 60 seconds. -/
def rule0 : AlertRule :=
  { id := 1, name := "r", condition := "c", enabled := true, cooldown_seconds := 60, level := "high" }

/-- An empty state store: no rule has ever fired. -/
def states0 : States := fun _ => none

/-- Witness for C5: a never-notified rule at time 100 whose transport
returns failure keeps the store empty. -/
theorem failed_dispatch_leaves_state_witness :
    (runRuleUpdate 100 rule0 true (some false) states0).1 = states0 ∧
      (runRuleUpdate 100 rule0 true (some false) states0).2 = true :=
  failed_dispatch_leaves_state 100 rule0 states0 (some false) (Or.inl rfl) (Or.inl rfl)

/-- Claim C6: a rule whose condition is now false but whose entry is
active gets `is_active` cleared, keeps `last_notified` untouched, sees no
dispatch this cycle, and no other rule's entry moves. -/
theorem clear_transition_state (now : Int) (rule : AlertRule) (sendResult : Option Bool)
    (states : States) (e : AlertStateEntry)
    (hst : states rule.id = some e) (hact : e.is_active = true) :
    (runRuleUpdate now rule false sendResult states).1 rule.id =
        some { last_notified := e.last_notified, is_active := false } ∧
      (runRuleUpdate now rule false sendResult states).2 = false ∧
      ∀ rid, rid ≠ rule.id → (runRuleUpdate now rule false sendResult states).1 rid = states rid := by
  refine ⟨?_, ?_, ?_⟩
  · unfold runRuleUpdate
    simp only [hst, hact, Bool.false_eq_true, if_false, if_true]
  · unfold runRuleUpdate
    simp only [hst, hact, Bool.false_eq_true, if_false, if_true]
  · intro rid hr
    exact runRuleUpdate_other now rule false sendResult states rid hr

/-- A state store where rule 1 is active, last notified at time 40. -/
def statesA : States :=
  fun rid => if rid = 1 then some { last_notified := some 40, is_active := true } else none

/-- Witness for C6: rule 1 was active and clears at time 100; rule 2's
(empty) entry is untouched. -/
theorem clear_transition_state_witness :
    (runRuleUpdate 100 rule0 false none statesA).1 rule0.id =
        some { last_notified := some 40, is_active := false } ∧
      (runRuleUpdate 100 rule0 false none statesA).2 = false ∧
      (runRuleUpdate 100 rule0 false none statesA).1 2 = statesA 2 := by
  have h := clear_transition_state 100 rule0 none statesA
    { last_notified := some 40, is_active := true } rfl rfl
  exact ⟨h.1, h.2.1, h.2.2 2 (by decide)⟩

/-- Claim C9: in any per-rule step that attempts no dispatch (false
condition, or suppression by cooldown), every entry's `last_notified` is
exactly what it was before the step: the timestamp is written only as
part of an actual dispatch attempt. -/
theorem last_notified_only_on_dispatch (now : Int) (rule : AlertRule) (triggered : Bool)
    (sendResult : Option Bool) (states : States) (rid : Nat)
    (hnod : (runRuleUpdate now rule triggered sendResult states).2 = false) :
    getLastNotified ((runRuleUpdate now rule triggered sendResult states).1 rid) =
      getLastNotified (states rid) := by
  by_cases hr : rid = rule.id
  · rw [hr]
    cases triggered with
    | false =>
      cases hst : states rule.id with
      | none => simp [runRuleUpdate, hst]
      | some e =>
        cases hact : e.is_active with
        | false => simp [runRuleUpdate, hst, hact]
        | true => simp [runRuleUpdate, hst, hact, getLastNotified]
    | true =>
      have h2 : (handleTriggeredAlert now rule (states rule.id) sendResult).2 = false := hnod
      have h1 := handle_no_dispatch_eq now rule (states rule.id) sendResult h2
      show getLastNotified
          (if rule.id = rule.id then (handleTriggeredAlert now rule (states rule.id) sendResult).1
           else states rule.id) =
        getLastNotified (states rule.id)
      rw [if_pos rfl, h1]
  · rw [runRuleUpdate_other now rule triggered sendResult states rid hr]

/-- A state store where rule 1 was cleared after notifying at time 90. -/
def statesB : States :=
  fun rid => if rid = 1 then some { last_notified := some 90, is_active := false } else none

/-- Witness for C9: rule 1 last notified at 90 and still within cooldown at
time 100 (cooldown 60); the suppressed step keeps its timestamp. -/
theorem last_notified_only_on_dispatch_witness :
    getLastNotified ((runRuleUpdate 100 rule0 true (some true) statesB).1 1) =
      getLastNotified (statesB 1) :=
  last_notified_only_on_dispatch 100 rule0 true (some true) statesB 1 (by decide)

/-- Claim C10: cooldown suppression reads only `last_notified`, not
`is_active`: a cleared entry (`is_active = false`) still inside its
cooldown window suppresses the dispatch and the store is unchanged, even
though the transport would have accepted. -/
theorem cooldown_ignores_is_active (now : Int) (rule : AlertRule) (sendResult : Option Bool)
    (states : States) (e : AlertStateEntry) (t : Int)
    (hst : states rule.id = some e) (_hinact : e.is_active = false)
    (hlast : e.last_notified = some t) (hcool : now - t < rule.cooldown_seconds) :
    (runRuleUpdate now rule true sendResult states).2 = false ∧
      (runRuleUpdate now rule true sendResult states).1 = states := by
  have hgl : getLastNotified (states rule.id) = some t := by
    rw [hst]
    show e.last_notified = some t
    exact hlast
  have hh : handleTriggeredAlert now rule (states rule.id) sendResult = (states rule.id, false) := by
    unfold handleTriggeredAlert
    simp only [hgl]
    rw [if_pos hcool]
  constructor
  · show (handleTriggeredAlert now rule (states rule.id) sendResult).2 = false
    rw [hh]
  · funext rid
    show (if rid = rule.id then (handleTriggeredAlert now rule (states rule.id) sendResult).1
          else states rid) = states rid
    rw [hh]
    by_cases hr : rid = rule.id
    · rw [if_pos hr, hr]
    · rw [if_neg hr]

/-- Witness for C10: rule 1 cleared, last notified at 90; re-triggering at
100 with cooldown 60 dispatches nothing and moves nothing. -/
theorem cooldown_ignores_is_active_witness :
    (runRuleUpdate 100 rule0 true (some true) statesB).2 = false ∧
      (runRuleUpdate 100 rule0 true (some true) statesB).1 = statesB :=
  cooldown_ignores_is_active 100 rule0 (some true) statesB
    { last_notified := some 90, is_active := false } 90 rfl rfl rfl (by decide)

/-- Every rule in the list is checked, in order, whatever each per-rule
body does (including raising). -/
lemma runCycle_checked (stepFn : AlertRule → States → Except String States)
    (rules : List AlertRule) :
    ∀ states, (runCycle stepFn rules states).2 = rules.map (fun r => r.id) := by
  induction rules with
  | nil => intro states; rfl
  | cons r rest ih =>
    intro states
    cases hstep : stepFn r states with
    | ok s => simp [runCycle, hstep, ih]
    | error msg => simp [runCycle, hstep, ih]

/-- Claim C8: a per-rule body that raises is caught inside the loop: the
cycle on `r :: rest` still records `r` as checked and continues over all
of `rest` from the unchanged state store, so every rule in the list is
checked regardless of failures. -/
theorem cycle_checks_all_rules (stepFn : AlertRule → States → Except String States)
    (r : AlertRule) (rest : List AlertRule) (states : States) (msg : String)
    (herr : stepFn r states = Except.error msg) :
    runCycle stepFn (r :: rest) states =
        ((runCycle stepFn rest states).1, r.id :: (runCycle stepFn rest states).2) ∧
      (runCycle stepFn (r :: rest) states).2 = (r :: rest).map (fun rr => rr.id) := by
  constructor
  · simp only [runCycle, herr]
  · exact runCycle_checked stepFn (r :: rest) states

/-- A second rule for the C8 witness. -/
def ruleB : AlertRule :=
  { id := 2, name := "s", condition := "c2", enabled := true, cooldown_seconds := 30, level := "low" }

/-- A per-rule body that always raises. -/
def stepFail : AlertRule → States → Except String States :=
  fun _ _ => Except.error "boom"

/-- Witness for C8: with a body that raises on every rule, both rules of
the cycle are still checked, in order. -/
theorem cycle_checks_all_rules_witness :
    runCycle stepFail (rule0 :: [ruleB]) states0 =
        ((runCycle stepFail [ruleB] states0).1, rule0.id :: (runCycle stepFail [ruleB] states0).2) ∧
      (runCycle stepFail (rule0 :: [ruleB]) states0).2 = (rule0 :: [ruleB]).map (fun rr => rr.id) :=
  cycle_checks_all_rules stepFail rule0 [ruleB] states0 "boom" rfl

end MonitorAlertChecker
